import Mathlib

/-!
Verification of the Metrics Engine of SchedulerLogsAnalyzer.

Shallow embedding of `src/report_generator.py` (`ReportGenerator.generate_report`).
A loaded CSV table is a `List RunRecord`; pandas column selections
(`df[df['Status'] == ...]`) become `List.filter`; sums and means over columns
become list sums and exact rational means (Python floats are modelled by `ℚ`,
which is faithful for every property considered here — none depends on float
rounding).  Numeric-to-text formatting (`{:.1f}` style format specifiers) is
abstracted by `ratStr`; no property below depends on the decimal rendering.
The `Start Time` column is read by no code path in `report_generator.py`; it is
carried as its hour-of-day (`startHour`), the only aspect the spec's peak-hour
enrichment consumes.
-/

/-- One row of the loaded table.  Columns: `Id`, `Status`, `Start Time`
(represented by its hour-of-day), `Duration`, `Total Tasks`,
`# Scheduled Tasks`, `# Unscheduled Tasks`. -/
structure RunRecord where
  id : String
  status : String
  startHour : Nat
  duration : ℚ
  totalTasks : Nat
  scheduledTasks : Nat
  unscheduledTasks : Nat
deriving DecidableEq

/-- The literal completed-status marker string of the source. -/
def completedMarker : String := "schedulerLogCompleted"

/-- The literal failed-status marker string of the source. -/
def failedMarker : String := "schedulerLogFailed"

/-- Line 28 of report_generator.py: `self.df[self.df['Status'] == 'schedulerLogCompleted']`. -/
def completed_df (df : List RunRecord) : List RunRecord :=
  df.filter (fun r => r.status = completedMarker)

/-- Line 22: `completed_runs = len(...)`. -/
def completedRuns (df : List RunRecord) : Nat :=
  (completed_df df).length

/-- Line 23: `skipped_runs = total_runs - completed_runs`. -/
def skippedRuns (df : List RunRecord) : Nat :=
  df.length - completedRuns df

/-- Line 26: `df_filtered = self.df[(self.df['Duration'] > 0)]` — note this
filters the WHOLE table, not the completed subset. -/
def df_filtered (df : List RunRecord) : List RunRecord :=
  df.filter (fun r => 0 < r.duration)

/-- Line 32: `batch_runs = completed_df[completed_df['Total Tasks'] > 1]`. -/
def batch_runs (df : List RunRecord) : List RunRecord :=
  (completed_df df).filter (fun r => 1 < r.totalTasks)

/-- Line 33: `individual_runs = completed_df[completed_df['Total Tasks'] == 1]`. -/
def individual_runs (df : List RunRecord) : List RunRecord :=
  (completed_df df).filter (fun r => r.totalTasks = 1)

/-- Exact mean of a list of rationals; `xs.sum / len` as pandas `.mean()`. -/
def listMeanQ (xs : List ℚ) : ℚ :=
  xs.sum / (xs.length : ℚ)

/-- Lines 37-43: average duration over batch runs, `0` when there are none. -/
def avgBatchDuration (df : List RunRecord) : ℚ :=
  if 0 < (batch_runs df).length then
    listMeanQ ((batch_runs df).map (fun r => r.duration))
  else 0

/-- The three fields of a batch extreme the renderer reads
(`Duration`, `Id`, `Total Tasks`), lines 39-45. -/
structure BatchStat where
  duration : ℚ
  id : String
  totalTasks : Nat
deriving DecidableEq

/-- First record attaining the minimal `f`-value (pandas `idxmin` keeps the
first occurrence on ties). -/
def firstMinBy (f : RunRecord → ℚ) : List RunRecord → Option RunRecord
  | [] => none
  | r :: rs =>
    match firstMinBy f rs with
    | none => some r
    | some m => if f r ≤ f m then some r else some m

/-- First record attaining the maximal `f`-value (pandas `idxmax` keeps the
first occurrence on ties). -/
def firstMaxBy (f : RunRecord → ℚ) : List RunRecord → Option RunRecord
  | [] => none
  | r :: rs =>
    match firstMaxBy f rs with
    | none => some r
    | some m => if f m ≤ f r then some r else some m

/-- Lines 39/44: `min_batch`, or the sentinel when the batch set is empty. -/
def minBatch (df : List RunRecord) : BatchStat :=
  match firstMinBy (fun r => r.duration) (batch_runs df) with
  | some r => { duration := r.duration, id := r.id, totalTasks := r.totalTasks }
  | none => { duration := 0, id := "N/A", totalTasks := 0 }

/-- Lines 40/45: `max_batch`, or the sentinel when the batch set is empty. -/
def maxBatch (df : List RunRecord) : BatchStat :=
  match firstMaxBy (fun r => r.duration) (batch_runs df) with
  | some r => { duration := r.duration, id := r.id, totalTasks := r.totalTasks }
  | none => { duration := 0, id := "N/A", totalTasks := 0 }

/-- Line 48: `total_scheduled = completed_df['# Scheduled Tasks'].sum()`. -/
def totalScheduled (df : List RunRecord) : Nat :=
  ((completed_df df).map (fun r => r.scheduledTasks)).sum

/-- Line 49: `total_unscheduled = completed_df['# Unscheduled Tasks'].sum()`. -/
def totalUnscheduled (df : List RunRecord) : Nat :=
  ((completed_df df).map (fun r => r.unscheduledTasks)).sum

/-- Line 50: `total_tasks = total_scheduled + total_unscheduled`. -/
def totalTasksAll (df : List RunRecord) : Nat :=
  totalScheduled df + totalUnscheduled df

/-- Line 53: `skipped_df = self.df[self.df['Status'] != 'schedulerLogCompleted']`. -/
def skipped_df (df : List RunRecord) : List RunRecord :=
  df.filter (fun r => r.status ≠ completedMarker)

/-- Line 54: first five skipped ids in table order, `["N/A"]` when none. -/
def skippedIds (df : List RunRecord) : List String :=
  if 0 < (skipped_df df).length then ((skipped_df df).map (fun r => r.id)).take 5
  else ["N/A"]

/-- Line 57: the failed subset.  The source guards with
`if 'schedulerLogFailed' in self.df['Status'].unique() else pd.DataFrame()`;
the guard being false makes the filter empty, so the plain filter is
extensionally the same table. -/
def failed_df (df : List RunRecord) : List RunRecord :=
  df.filter (fun r => r.status = failedMarker)

/-- Line 58: first five failed ids in table order, `["N/A"]` when none. -/
def failedIds (df : List RunRecord) : List String :=
  if 0 < (failed_df df).length then ((failed_df df).map (fun r => r.id)).take 5
  else ["N/A"]

/-- Line 62: `scheduled_df = df_filtered[df_filtered['# Scheduled Tasks'] > 0]`. -/
def scheduled_df (df : List RunRecord) : List RunRecord :=
  (df_filtered df).filter (fun r => 0 < r.scheduledTasks)

/-- Line 63: `unscheduled_df = df_filtered[df_filtered['# Unscheduled Tasks'] > 0]`. -/
def unscheduled_df (df : List RunRecord) : List RunRecord :=
  (df_filtered df).filter (fun r => 0 < r.unscheduledTasks)

/-- The four entries of the `scheduled_metrics` / `unscheduled_metrics` dicts
(lines 66-79).  `count` is the `batches_with_*` entry. -/
structure TaskMetrics where
  total : Nat
  avg_per_batch : ℚ
  count : Nat
  avg_duration : ℚ
deriving DecidableEq

/-- Lines 66-71: `scheduled_metrics`. -/
def scheduledMetrics (df : List RunRecord) : TaskMetrics :=
  { total := totalScheduled df
    avg_per_batch :=
      if 0 < (scheduled_df df).length then
        listMeanQ ((scheduled_df df).map (fun r => (r.scheduledTasks : ℚ)))
      else 0
    count := (scheduled_df df).length
    avg_duration :=
      if 0 < (scheduled_df df).length then
        listMeanQ ((scheduled_df df).map (fun r => r.duration))
      else 0 }

/-- Lines 74-79: `unscheduled_metrics`. -/
def unscheduledMetrics (df : List RunRecord) : TaskMetrics :=
  { total := totalUnscheduled df
    avg_per_batch :=
      if 0 < (unscheduled_df df).length then
        listMeanQ ((unscheduled_df df).map (fun r => (r.unscheduledTasks : ℚ)))
      else 0
    count := (unscheduled_df df).length
    avg_duration :=
      if 0 < (unscheduled_df df).length then
        listMeanQ ((unscheduled_df df).map (fun r => r.duration))
      else 0 }

/-- Abstract numeric rendering of a rational (the source's fixed-precision
format specifiers are not load-bearing for any property proved here). -/
def ratStr (q : ℚ) : String :=
  toString q.num ++ "/" ++ toString q.den

/-- Line 86: `scheduled_percent` (only evaluated under the guard
`total_tasks > 0` in the source). -/
def scheduledPercent (df : List RunRecord) : ℚ :=
  ((totalScheduled df : ℚ) / (totalTasksAll df : ℚ)) * 100

/-- Line 87: `unscheduled_percent`. -/
def unscheduledPercent (df : List RunRecord) : ℚ :=
  ((totalUnscheduled df : ℚ) / (totalTasksAll df : ℚ)) * 100

/-- Line 91: `completion_rate = (completed_runs / total_runs * 100) if total_runs > 0 else 0`. -/
def completionRate (df : List RunRecord) : ℚ :=
  if 0 < df.length then (completedRuns df : ℚ) / (df.length : ℚ) * 100 else 0

/-- Line 95: `avg_tasks_per_run = total_tasks / completed_runs if completed_runs > 0 else 0`. -/
def avgTasksPerRun (df : List RunRecord) : ℚ :=
  if 0 < completedRuns df then (totalTasksAll df : ℚ) / (completedRuns df : ℚ) else 0

/-- Lines 82-106: the `insights` list, appended in source order.  The first
entry exists only when `total_tasks > 0` (line 85) and the last two only when
`completed_runs > 0` (line 102). -/
def insightsList (df : List RunRecord) : List String :=
  (if 0 < totalTasksAll df then
      ["Scheduled vs Unscheduled Ratio: " ++ ratStr (scheduledPercent df)
        ++ "% / " ++ ratStr (unscheduledPercent df) ++ "%"]
    else [])
  ++ ["Run Completion Rate: " ++ ratStr (completionRate df) ++ "%",
      "Average Tasks Per Run: " ++ ratStr (avgTasksPerRun df),
      "Average Run Duration: " ++ ratStr (avgBatchDuration df) ++ " minutes"]
  ++ (if 0 < completedRuns df then
        ["Avg Scheduled Tasks Per Run: "
            ++ ratStr ((totalScheduled df : ℚ) / (completedRuns df : ℚ)),
          "Avg Unscheduled Tasks Per Run: "
            ++ ratStr ((totalUnscheduled df : ℚ) / (completedRuns df : ℚ))]
      else [])

/-- Line 109: `same_ids = set(skipped_ids) == set(failed_ids)`. -/
def sameIds (df : List RunRecord) : Prop :=
  (skippedIds df).toFinset = (failedIds df).toFinset

instance (df : List RunRecord) : Decidable (sameIds df) := by
  unfold sameIds; infer_instance

/-- Lines 112-128: the Batch Processing Summary section as labelled
`label: value` lines (the PDF renderer splits each line at the first colon,
`pdf_generator.py` lines 139-142).  A single combined `Problem IDs` line is
emitted exactly under `same_ids`, otherwise separate `Skipped IDs` and
`Failed IDs` lines. -/
def batchSummaryLines (df : List RunRecord) : List (String × String) :=
  let stats : List (String × String) :=
    [("Total Batch Runs", toString (batch_runs df).length),
     ("Average Batch Duration", ratStr (avgBatchDuration df) ++ " minutes"),
     ("Maximum Batch Size",
        toString (maxBatch df).totalTasks ++ " tasks (ID: " ++ (maxBatch df).id ++ ")"),
     ("Maximum Duration",
        ratStr (maxBatch df).duration ++ " minutes (ID: " ++ (maxBatch df).id ++ ")"),
     ("Minimum Duration",
        ratStr (minBatch df).duration ++ " minutes (ID: " ++ (minBatch df).id ++ ")")]
  if sameIds df then
    stats ++ [("Problem IDs", String.intercalate ", " ((skippedIds df).take 5))]
  else
    stats ++ [("Skipped IDs", String.intercalate ", " ((skippedIds df).take 5)),
              ("Failed IDs", String.intercalate ", " ((failedIds df).take 5))]

/-- Lines 133-136: the Run Distribution Details section. -/
def distLines (df : List RunRecord) : List (String × String) :=
  [("Total Runs", toString df.length),
   ("Completed Runs", toString (completedRuns df)),
   ("Skipped Runs", toString (skippedRuns df))]

/-- Failures of the try-body of `generate_report`: the explicit
`len(self.df) == 0` early `return None` (lines 14-16), and the `IndexError`
raised by the f-string `insights[0]`..`insights[5]` accesses (lines 139-144)
when the insights list is shorter than six — swallowed by the blanket
`except Exception` (line 160). -/
inductive GenError where
  | emptyData
  | indexError
deriving DecidableEq

/-- The six insight lines the report template reads by fixed index
(lines 139-144); `none` models the `IndexError` when fewer than six exist. -/
def insightsSix (df : List RunRecord) : Option (List String) :=
  let ins := insightsList df
  match ins.get? 0, ins.get? 1, ins.get? 2, ins.get? 3, ins.get? 4, ins.get? 5 with
  | some a, some b, some c, some d, some e, some f => some [a, b, c, d, e, f]
  | _, _, _, _, _, _ => none

/-- The report body minus the current-timestamp date line: everything in the
rendered text (lines 130-147) that depends only on the table. -/
structure ReportCore where
  dist : List (String × String)
  insightLines : List String
  batch : List (String × String)
deriving DecidableEq

/-- The try-body of `generate_report` up to rendering, date line excluded:
empty-table early exit (lines 14-16), then the fixed-index insight rendering
(lines 139-144), then the assembled sections. -/
def reportCore (df : List RunRecord) : Except GenError ReportCore :=
  if df.length = 0 then .error .emptyData
  else
    match insightsSix df with
    | some l6 =>
        .ok { dist := distLines df, insightLines := l6, batch := batchSummaryLines df }
    | none => .error .indexError

/-- The rendered report, structured: title line, date line (the only
timestamp-dependent part, line 131), and the three sections. -/
structure Report where
  title : String
  dateLine : String
  dist : List (String × String)
  insightLines : List String
  batch : List (String × String)
deriving DecidableEq

/-- Line 130 title plus line 131 date line wrapped around the body. -/
def attachDate (now : String) (c : ReportCore) : Report :=
  { title := "Scheduler Run Analysis Report"
    dateLine := "Date: " ++ now
    dist := c.dist
    insightLines := c.insightLines
    batch := c.batch }

/-- The try-body of `generate_report` given an already-loaded table:
the current timestamp `now` enters only through the date line. -/
def generate_report_body (now : String) (df : List RunRecord) : Except GenError Report :=
  match reportCore df with
  | .ok c => .ok (attachDate now c)
  | .error e => .error e

/-- Outcomes of `pd.read_csv` plus column access, i.e. the remaining except
arms of lines 151-159: `pd.errors.EmptyDataError`, `pd.errors.ParserError`,
and `KeyError` for a missing required column. -/
inductive LoadError where
  | emptyFile
  | malformed
  | missingColumn
deriving DecidableEq

/-- The returned dict `{"content": report}` of line 149. -/
structure ReportDict where
  content : Report
deriving DecidableEq

/-- The whole of `generate_report(csv_path)`: every load failure and every
internal computation failure is caught (lines 151-162) and mapped to `None`;
success returns the content dict. -/
def generate_report (now : String) (load : Except LoadError (List RunRecord)) :
    Option ReportDict :=
  match load with
  | .error _ => none
  | .ok df =>
    match generate_report_body now df with
    | .ok rep => some { content := rep }
    | .error _ => none

/-- Count of lines carrying a given label in a rendered section. -/
def labelCount (lines : List (String × String)) (lbl : String) : Nat :=
  (lines.map Prod.fst).count lbl

/-! ### Spec-side definitions for refinement comparison -/

/-- The spec's reading of the per-category duration analysis (step 6): filter
the COMPLETED set to positive duration, then to positive scheduled tasks.
Declared to be compared with the source's `scheduled_df`. -/
def specScheduled_df (df : List RunRecord) : List RunRecord :=
  ((completed_df df).filter (fun r => 0 < r.duration)).filter
    (fun r => 0 < r.scheduledTasks)

/-- The spec's reading for the unscheduled category, as `specScheduled_df`. -/
def specUnscheduled_df (df : List RunRecord) : List RunRecord :=
  ((completed_df df).filter (fun r => 0 < r.duration)).filter
    (fun r => 0 < r.unscheduledTasks)

/-! ### Peak-hour analysis, modelled from the spec

The report variant carrying the peak-hour enrichment is not among the sources
under src/ (only the variant without it, `report_generator.py`, is); per the
spec it buckets completed records by hour-of-day of `start_time`. -/

/-- Modelled from the spec: number of records of the whole table falling in a
given hour bucket. -/
def hourAllCount (df : List RunRecord) (h : Nat) : Nat :=
  (df.filter (fun r => r.startHour = h)).length

/-- Modelled from the spec: number of completed records in a given hour
bucket. -/
def hourCompletedCount (df : List RunRecord) (h : Nat) : Nat :=
  ((completed_df df).filter (fun r => r.startHour = h)).length

/-- Modelled from the spec: per hour, the ratio of completed records to all
records in that hour across the whole table; `0` for an unpopulated hour
(the spec's global zero-denominator rule). -/
def hourCompletedShare (df : List RunRecord) (h : Nat) : ℚ :=
  if hourAllCount df h = 0 then 0
  else (hourCompletedCount df h : ℚ) / (hourAllCount df h : ℚ)

/-- Index in `0..n` maximising `f`, ties broken towards the smallest index. -/
def argmaxUpTo {α : Type} [LinearOrder α] (f : Nat → α) : Nat → Nat
  | 0 => 0
  | n + 1 => if f (argmaxUpTo f n) < f (n + 1) then n + 1 else argmaxUpTo f n

/-- Modelled from the spec: peak hour = mode of the hour distribution of
completed records, ties broken by the smallest hour value. -/
def peakHour (df : List RunRecord) : Nat :=
  argmaxUpTo (fun h => hourCompletedCount df h) 23

/-- Modelled from the spec: the hour with the highest completed-to-all ratio,
ties broken by the smallest hour value. -/
def bestShareHour (df : List RunRecord) : Nat :=
  argmaxUpTo (fun h => hourCompletedShare df h) 23

/-! ### Concrete tables used by counterexamples, code-bug evaluations and
witnesses -/

/-- A default report used only to name concrete successful outputs. -/
def reportDefault : Report :=
  { title := "", dateLine := "", dist := [], insightLines := [], batch := [] }

/-- One completed record whose scheduled and unscheduled task counts are both
zero: a non-empty table with `total_tasks_all == 0`. -/
def dfC1 : List RunRecord := [⟨"a", completedMarker, 9, 5, 1, 0, 0⟩]

/-- One record whose status is neither marker: a non-empty table with no
completed records. -/
def dfC2 : List RunRecord := [⟨"b", "schedulerLogSkipped", 9, 5, 1, 1, 0⟩]

/-- A non-completed record with positive duration and positive task counts. -/
def recC3 : RunRecord := ⟨"c", "schedulerLogSkipped", 9, 5, 1, 2, 1⟩

/-- Table containing only `recC3`. -/
def dfC3 : List RunRecord := [recC3]

/-- A completed record with `total_tasks == 0`. -/
def recC7 : RunRecord := ⟨"z", completedMarker, 3, 2, 0, 0, 0⟩

/-- Table containing only `recC7`. -/
def dfC7 : List RunRecord := [recC7]

/-- Two completed records at hour 9, one at hour 14, one skipped at hour 9. -/
def dfC5 : List RunRecord :=
  [⟨"p1", completedMarker, 9, 1, 1, 1, 0⟩,
   ⟨"p2", "schedulerLogSkipped", 9, 1, 1, 0, 0⟩,
   ⟨"p3", completedMarker, 9, 1, 1, 1, 0⟩,
   ⟨"p4", completedMarker, 14, 1, 1, 1, 0⟩]

/-- A table on which report generation succeeds and every non-completed
record carries the failed marker. -/
def dfC8 : List RunRecord :=
  [⟨"w1", completedMarker, 9, 5, 2, 2, 1⟩, ⟨"w2", failedMarker, 10, 3, 1, 1, 0⟩]

/-- The concrete report produced from `dfC8`. -/
def repC8 : Report := ((generate_report_body "d" dfC8).toOption).getD reportDefault

/-- A table on which report generation succeeds, for the determinism check. -/
def dfC9 : List RunRecord :=
  [⟨"y1", completedMarker, 8, 4, 3, 2, 2⟩, ⟨"y2", "schedulerLogSkipped", 11, 0, 1, 0, 0⟩]

/-- The report from `dfC9` at one timestamp. -/
def rep9a : Report := ((generate_report_body "t1" dfC9).toOption).getD reportDefault

/-- The report from `dfC9` at another timestamp. -/
def rep9b : Report := ((generate_report_body "t2" dfC9).toOption).getD reportDefault

/-- A table on which report generation succeeds, for the C10 witness. -/
def dfC10 : List RunRecord :=
  [⟨"q1", completedMarker, 7, 2, 2, 1, 1⟩]

/-- The concrete report produced from `dfC10`. -/
def repC10 : Report := ((generate_report_body "d" dfC10).toOption).getD reportDefault

/-! ### Helper lemmas -/

/-- Splitting a list by a decidable status predicate partitions its length. -/
lemma completed_add_skipped_length (df : List RunRecord) :
    (completed_df df).length + (skipped_df df).length = df.length := by
  induction df with
  | nil => rfl
  | cons r t ih =>
    by_cases h : r.status = completedMarker <;>
      simp [completed_df, skipped_df, List.filter_cons, h] at * <;> omega

/-- The batch and individual predicates are mutually exclusive, so their
filter lengths add up to at most the length of the filtered list. -/
lemma batch_add_individual_length_le (l : List RunRecord) :
    (l.filter (fun r => 1 < r.totalTasks)).length
      + (l.filter (fun r => r.totalTasks = 1)).length ≤ l.length := by
  induction l with
  | nil => simp
  | cons r t ih =>
    by_cases h1 : 1 < r.totalTasks <;> by_cases h2 : r.totalTasks = 1 <;>
      simp [List.filter_cons, h1, h2] <;> omega

/-- `argmaxUpTo` never exceeds its bound. -/
lemma argmaxUpTo_le {α : Type} [LinearOrder α] (f : Nat → α) (n : Nat) :
    argmaxUpTo f n ≤ n := by
  induction n with
  | zero => simp [argmaxUpTo]
  | succ n ih =>
    unfold argmaxUpTo
    split
    · exact le_refl _
    · exact Nat.le_succ_of_le ih

/-- `argmaxUpTo` attains a maximal value of `f` on `0..n`. -/
lemma le_f_argmaxUpTo {α : Type} [LinearOrder α] (f : Nat → α) (n : Nat) :
    ∀ h, h ≤ n → f h ≤ f (argmaxUpTo f n) := by
  induction n with
  | zero =>
    intro h hh
    interval_cases h
    simp [argmaxUpTo]
  | succ n ih =>
    intro h hh
    unfold argmaxUpTo
    rcases Nat.le_succ_iff_eq_or_le.mp hh with heq | hle
    · subst heq
      split
      · exact le_refl _
      · next hnot => exact le_of_not_lt hnot
    · split
      · next hlt => exact le_of_lt (lt_of_le_of_lt (ih h hle) hlt)
      · exact ih h hle

/-- On a tie, `argmaxUpTo` points at an index no larger than the tying one. -/
lemma argmaxUpTo_tie_le {α : Type} [LinearOrder α] (f : Nat → α) (n : Nat) :
    ∀ h, h ≤ n → f h = f (argmaxUpTo f n) → argmaxUpTo f n ≤ h := by
  induction n with
  | zero =>
    intro h _ _
    simp [argmaxUpTo]
  | succ n ih =>
    intro h hh htie
    rcases Nat.le_succ_iff_eq_or_le.mp hh with heq | hle
    · subst heq
      exact argmaxUpTo_le f (n + 1)
    · unfold argmaxUpTo at htie ⊢
      by_cases hlt : f (argmaxUpTo f n) < f (n + 1)
      · rw [if_pos hlt] at htie
        have hmax := le_f_argmaxUpTo f n h hle
        rw [htie] at hmax
        exact absurd hmax (not_le_of_lt hlt)
      · rw [if_neg hlt] at htie ⊢
        exact ih h hle htie

/-! ### Claim theorems -/

/-- Claim C6: for every Run Table with N records, the reported completed
count plus the reported skipped count equals N, and a record is skipped
exactly when its status is not the completed marker: the subtraction-based
`skipped_runs` of line 23 agrees with the complement filter of line 53. -/
theorem c6_completed_plus_skipped (df : List RunRecord) :
    completedRuns df + skippedRuns df = df.length
      ∧ skippedRuns df = (skipped_df df).length := by
  have hsum := completed_add_skipped_length df
  have hle : (completed_df df).length ≤ df.length := List.length_filter_le _ _
  constructor
  · unfold skippedRuns completedRuns
    omega
  · unfold skippedRuns completedRuns
    omega

/-- Claim C7: the batch set (completed, `total_tasks > 1`) and the individual
set (completed, `total_tasks == 1`) are disjoint subsets of the completed
set; completed records with `total_tasks == 0` belong to neither; batch count
plus individual count never exceeds the completed count. -/
theorem c7_batch_individual_split (df : List RunRecord) :
    ((batch_runs df).length + (individual_runs df).length ≤ (completed_df df).length)
      ∧ (∀ r, r ∈ batch_runs df → r ∈ completed_df df)
      ∧ (∀ r, r ∈ individual_runs df → r ∈ completed_df df)
      ∧ (∀ r, ¬(r ∈ batch_runs df ∧ r ∈ individual_runs df))
      ∧ (∀ r, r.totalTasks = 0 → r ∉ batch_runs df ∧ r ∉ individual_runs df) := by
  refine ⟨batch_add_individual_length_le _, ?_, ?_, ?_, ?_⟩
  · intro r hr
    exact (List.mem_filter.mp hr).1
  · intro r hr
    exact (List.mem_filter.mp hr).1
  · rintro r ⟨hb, hi⟩
    have h1 : 1 < r.totalTasks := by
      have := (List.mem_filter.mp hb).2
      simpa using this
    have h2 : r.totalTasks = 1 := by
      have := (List.mem_filter.mp hi).2
      simpa using this
    omega
  · intro r h0
    constructor
    · intro hb
      have h1 : 1 < r.totalTasks := by
        have := (List.mem_filter.mp hb).2
        simpa using this
      omega
    · intro hi
      have h2 : r.totalTasks = 1 := by
        have := (List.mem_filter.mp hi).2
        simpa using this
      omega

/-- Witness for C7: the completed record `recC7` has `total_tasks == 0` and
belongs to neither the batch nor the individual set of its table. -/
theorem c7_witness : recC7 ∉ batch_runs dfC7 ∧ recC7 ∉ individual_runs dfC7 :=
  (c7_batch_individual_split dfC7).2.2.2.2 recC7 rfl

/-- Claim C4: for every Run Table with zero records, report computation fails
with the empty-data error (lines 14-16) and the surrounding
`generate_report` produces no report value. -/
theorem c4_empty_table (now : String) (df : List RunRecord) (h : df.length = 0) :
    generate_report_body now df = .error .emptyData
      ∧ generate_report now (.ok df) = none := by
  have hb : generate_report_body now df = .error .emptyData := by
    unfold generate_report_body reportCore
    rw [if_pos h]
  exact ⟨hb, by simp [generate_report, hb]⟩

/-- Witness for C4 at the concrete empty table. -/
theorem c4_witness :
    generate_report_body "2025-01-01" [] = .error .emptyData
      ∧ generate_report "2025-01-01" (.ok []) = none :=
  c4_empty_table "2025-01-01" [] rfl

/-- Claim C1 (code bug): `dfC1` is a non-empty table whose single record is
completed with `total_tasks_all == 0`; instead of producing a report with
both percentages `0`, the source builds only five insight strings (the ratio
insight is skipped by the `total_tasks > 0` guard of line 85) and the
fixed-index rendering `insights[5]` of line 144 raises `IndexError`, which
the blanket handler maps to `None`. -/
theorem c1_zero_total_tasks_fails :
    dfC1.length = 1 ∧ completedRuns dfC1 = 1 ∧ totalTasksAll dfC1 = 0
      ∧ (insightsList dfC1).length = 5
      ∧ generate_report_body "2025-01-01" dfC1 = .error .indexError
      ∧ generate_report "2025-01-01" (.ok dfC1) = none :=
  ⟨rfl, rfl, rfl, rfl, rfl, rfl⟩

/-- Claim C2 (code bug): `dfC2` is a non-empty table with no completed
record; instead of continuing with zero/default metrics, the source builds
only three insight strings (the guards of lines 85 and 102 both fail) and the
fixed-index rendering `insights[3]`..`insights[5]` raises `IndexError`,
mapped to `None`. -/
theorem c2_no_completed_fails :
    dfC2.length = 1 ∧ completedRuns dfC2 = 0
      ∧ (insightsList dfC2).length = 3
      ∧ generate_report_body "2025-01-01" dfC2 = .error .indexError
      ∧ generate_report "2025-01-01" (.ok dfC2) = none :=
  ⟨rfl, rfl, rfl, rfl, rfl⟩

/-- Claim C3 counterexample: the claim states the per-category analysis
filters the COMPLETED set, but line 26 of the source filters the whole
table: on `dfC3`, whose only record is non-completed with positive duration
and positive task counts, the source's category subsets are non-empty while
the claim's completed-based subsets are empty. -/
theorem c3_counterexample :
    scheduled_df dfC3 ≠ specScheduled_df dfC3
      ∧ (scheduledMetrics dfC3).count = 1 ∧ specScheduled_df dfC3 = []
      ∧ unscheduled_df dfC3 ≠ specUnscheduled_df dfC3
      ∧ (unscheduledMetrics dfC3).count = 1 ∧ specUnscheduled_df dfC3 = [] := by
  refine ⟨?_, rfl, rfl, ?_, rfl, rfl⟩ <;> decide

/-- Claim C3 as amended: the per-category subsets are obtained by filtering
the WHOLE table (all records, any status) to `duration > 0` and then to
`scheduled_tasks > 0` (resp. `unscheduled_tasks > 0`); the computed mean
tasks per record, mean duration, and qualifying-record count range over
exactly those subsets, each mean being `0` when its subset is empty. -/
theorem c3_category_analysis (df : List RunRecord) :
    (∀ r, r ∈ scheduled_df df ↔ r ∈ df ∧ 0 < r.duration ∧ 0 < r.scheduledTasks)
      ∧ (∀ r, r ∈ unscheduled_df df ↔ r ∈ df ∧ 0 < r.duration ∧ 0 < r.unscheduledTasks)
      ∧ ((scheduledMetrics df).count = (scheduled_df df).length
          ∧ (unscheduledMetrics df).count = (unscheduled_df df).length)
      ∧ ((scheduled_df df).length = 0 →
          (scheduledMetrics df).avg_per_batch = 0 ∧ (scheduledMetrics df).avg_duration = 0)
      ∧ ((unscheduled_df df).length = 0 →
          (unscheduledMetrics df).avg_per_batch = 0 ∧ (unscheduledMetrics df).avg_duration = 0)
      ∧ (0 < (scheduled_df df).length →
          (scheduledMetrics df).avg_per_batch * ((scheduled_df df).length : ℚ)
              = ((scheduled_df df).map (fun r => (r.scheduledTasks : ℚ))).sum
            ∧ (scheduledMetrics df).avg_duration * ((scheduled_df df).length : ℚ)
              = ((scheduled_df df).map (fun r => r.duration)).sum)
      ∧ (0 < (unscheduled_df df).length →
          (unscheduledMetrics df).avg_per_batch * ((unscheduled_df df).length : ℚ)
              = ((unscheduled_df df).map (fun r => (r.unscheduledTasks : ℚ))).sum
            ∧ (unscheduledMetrics df).avg_duration * ((unscheduled_df df).length : ℚ)
              = ((unscheduled_df df).map (fun r => r.duration)).sum) := by
  have hcast : ∀ l : List RunRecord, 0 < l.length → ((l.length : ℚ) ≠ 0) := by
    intro l hl
    exact_mod_cast Nat.pos_iff_ne_zero.mp hl
  refine ⟨?_, ?_, ⟨rfl, rfl⟩, ?_, ?_, ?_, ?_⟩
  · intro r
    simp only [scheduled_df, df_filtered, List.mem_filter, decide_eq_true_eq, and_assoc]
  · intro r
    simp only [unscheduled_df, df_filtered, List.mem_filter, decide_eq_true_eq, and_assoc]
  · intro h
    simp [scheduledMetrics, h]
  · intro h
    simp [unscheduledMetrics, h]
  · intro h
    constructor <;>
      · simp only [scheduledMetrics, if_pos h, listMeanQ, List.length_map]
        rw [div_mul_cancel₀ _ (hcast _ h)]
  · intro h
    constructor <;>
      · simp only [unscheduledMetrics, if_pos h, listMeanQ, List.length_map]
        rw [div_mul_cancel₀ _ (hcast _ h)]

/-- Witness for the amended C3 at the concrete table `dfC3`. -/
theorem c3_witness :
    (recC3 ∈ scheduled_df dfC3 ↔ recC3 ∈ dfC3 ∧ 0 < recC3.duration ∧ 0 < recC3.scheduledTasks)
      ∧ ((scheduledMetrics dfC3).avg_per_batch * ((scheduled_df dfC3).length : ℚ)
          = ((scheduled_df dfC3).map (fun r => (r.scheduledTasks : ℚ))).sum) :=
  ⟨(c3_category_analysis dfC3).1 recC3,
    ((c3_category_analysis dfC3).2.2.2.2.2.1 (by decide)).1⟩

/-- Claim C5 (modelled from the spec, the peak-hour report variant being
absent from src/): completed records are bucketed by hour-of-day; the peak
hour is the mode of that hour distribution, ties broken by the smallest hour
value; the hour with the highest completed-to-all ratio is likewise the
first maximiser of `hourCompletedShare`.  Both selected hours lie in
`0..23`. -/
theorem c5_peak_hour (df : List RunRecord) (h : Nat) (hh : h ≤ 23) :
    (hourCompletedCount df h ≤ hourCompletedCount df (peakHour df)
        ∧ (hourCompletedCount df h = hourCompletedCount df (peakHour df) →
            peakHour df ≤ h)
        ∧ peakHour df ≤ 23)
      ∧ (hourCompletedShare df h ≤ hourCompletedShare df (bestShareHour df)
        ∧ (hourCompletedShare df h = hourCompletedShare df (bestShareHour df) →
            bestShareHour df ≤ h)
        ∧ bestShareHour df ≤ 23) := by
  refine ⟨⟨?_, ?_, ?_⟩, ⟨?_, ?_, ?_⟩⟩
  · exact le_f_argmaxUpTo (fun k => hourCompletedCount df k) 23 h hh
  · exact argmaxUpTo_tie_le (fun k => hourCompletedCount df k) 23 h hh
  · exact argmaxUpTo_le _ 23
  · exact le_f_argmaxUpTo (fun k => hourCompletedShare df k) 23 h hh
  · exact argmaxUpTo_tie_le (fun k => hourCompletedShare df k) 23 h hh
  · exact argmaxUpTo_le _ 23

/-- Witness for C5 at the concrete table `dfC5` and hour 14. -/
theorem c5_witness :
    (hourCompletedCount dfC5 14 ≤ hourCompletedCount dfC5 (peakHour dfC5)
        ∧ (hourCompletedCount dfC5 14 = hourCompletedCount dfC5 (peakHour dfC5) →
            peakHour dfC5 ≤ 14)
        ∧ peakHour dfC5 ≤ 23)
      ∧ (hourCompletedShare dfC5 14 ≤ hourCompletedShare dfC5 (bestShareHour dfC5)
        ∧ (hourCompletedShare dfC5 14 = hourCompletedShare dfC5 (bestShareHour dfC5) →
            bestShareHour dfC5 ≤ 14)
        ∧ bestShareHour dfC5 ≤ 23) :=
  c5_peak_hour dfC5 14 (by decide)

/-- A successful run of the try-body fixes every section of the report:
title, date line, distribution lines, batch summary, and the six insight
lines. -/
lemma generate_report_body_ok (now : String) (df : List RunRecord) (rep : Report)
    (h : generate_report_body now df = .ok rep) :
    rep.title = "Scheduler Run Analysis Report" ∧ rep.dateLine = "Date: " ++ now
      ∧ rep.dist = distLines df ∧ rep.batch = batchSummaryLines df
      ∧ insightsSix df = some rep.insightLines := by
  unfold generate_report_body at h
  cases hrc : reportCore df with
  | error e => rw [hrc] at h; cases h
  | ok c =>
    rw [hrc] at h
    have hrep : attachDate now c = rep := by
      injection h
    unfold reportCore at hrc
    by_cases hz : df.length = 0
    · rw [if_pos hz] at hrc; cases hrc
    · rw [if_neg hz] at hrc
      cases hins : insightsSix df with
      | none => rw [hins] at hrc; cases hrc
      | some l6 =>
        rw [hins] at hrc
        injection hrc with hc
        subst hrep
        rw [← hc]
        exact ⟨rfl, rfl, rfl, rfl, rfl⟩

/-- The map to labels of the batch summary when the id sets agree. -/
lemma batchSummaryLines_labels_same (df : List RunRecord) (hs : sameIds df) :
    (batchSummaryLines df).map Prod.fst =
      ["Total Batch Runs", "Average Batch Duration", "Maximum Batch Size",
       "Maximum Duration", "Minimum Duration", "Problem IDs"] := by
  simp [batchSummaryLines, hs]

/-- The map to labels of the batch summary when the id sets differ. -/
lemma batchSummaryLines_labels_diff (df : List RunRecord) (hs : ¬ sameIds df) :
    (batchSummaryLines df).map Prod.fst =
      ["Total Batch Runs", "Average Batch Duration", "Maximum Batch Size",
       "Maximum Duration", "Minimum Duration", "Skipped IDs", "Failed IDs"] := by
  simp [batchSummaryLines, hs]

/-- Claim C8: in the rendered report, `skipped_ids` is the list of the first
five ids (in table order) of skipped records, or `["N/A"]` if there are
none, and `failed_ids` likewise for failed-marker records; the report has a
single combined `Problem IDs` line exactly when
`set(skipped_ids) == set(failed_ids)`, and otherwise separate `Skipped IDs`
and `Failed IDs` lines. -/
theorem c8_problem_ids (df : List RunRecord) (now : String) (rep : Report)
    (h : generate_report_body now df = .ok rep) :
    ((labelCount rep.batch "Problem IDs" = 1
        ∧ labelCount rep.batch "Skipped IDs" = 0
        ∧ labelCount rep.batch "Failed IDs" = 0) ↔ sameIds df)
      ∧ (¬ sameIds df →
          labelCount rep.batch "Problem IDs" = 0
            ∧ labelCount rep.batch "Skipped IDs" = 1
            ∧ labelCount rep.batch "Failed IDs" = 1)
      ∧ (skipped_df df = [] → skippedIds df = ["N/A"])
      ∧ (skipped_df df ≠ [] →
          skippedIds df = ((skipped_df df).map (fun r => r.id)).take 5)
      ∧ (failed_df df = [] → failedIds df = ["N/A"])
      ∧ (failed_df df ≠ [] →
          failedIds df = ((failed_df df).map (fun r => r.id)).take 5) := by
  have hbatch := (generate_report_body_ok now df rep h).2.2.2.1
  refine ⟨?_, ?_, ?_, ?_, ?_, ?_⟩
  · by_cases hs : sameIds df
    · rw [hbatch]
      unfold labelCount
      rw [batchSummaryLines_labels_same df hs]
      simp [hs]
    · rw [hbatch]
      unfold labelCount
      rw [batchSummaryLines_labels_diff df hs]
      simp [hs]
  · intro hs
    rw [hbatch]
    unfold labelCount
    rw [batchSummaryLines_labels_diff df hs]
    refine ⟨?_, ?_, ?_⟩ <;> decide
  · intro he
    simp [skippedIds, he]
  · intro hne
    have hpos : 0 < (skipped_df df).length := List.length_pos.mpr hne
    simp [skippedIds, hpos]
  · intro he
    simp [failedIds, he]
  · intro hne
    have hpos : 0 < (failed_df df).length := List.length_pos.mpr hne
    simp [failedIds, hpos]

/-- Witness for C8 at the concrete table `dfC8`, whose only non-completed
record is failed: the two id sets agree and a single combined line is
rendered; the skipped ids are the first five in table order. -/
theorem c8_witness :
    (labelCount repC8.batch "Problem IDs" = 1
        ∧ labelCount repC8.batch "Skipped IDs" = 0
        ∧ labelCount repC8.batch "Failed IDs" = 0)
      ∧ skippedIds dfC8 = ((skipped_df dfC8).map (fun r => r.id)).take 5 := by
  have h := c8_problem_ids dfC8 "d" repC8 rfl
  exact ⟨h.1.mpr (by decide), h.2.2.2.1 (by decide)⟩

/-- Claim C9: report computation is deterministic in the table; two runs at
different timestamps agree on every section, the date line being the only
permitted difference. -/
theorem c9_deterministic (df : List RunRecord) (now1 now2 : String)
    (rep1 rep2 : Report)
    (h1 : generate_report_body now1 df = .ok rep1)
    (h2 : generate_report_body now2 df = .ok rep2) :
    rep1.title = rep2.title ∧ rep1.dist = rep2.dist
      ∧ rep1.insightLines = rep2.insightLines ∧ rep1.batch = rep2.batch := by
  obtain ⟨ht1, _, hd1, hb1, hi1⟩ := generate_report_body_ok now1 df rep1 h1
  obtain ⟨ht2, _, hd2, hb2, hi2⟩ := generate_report_body_ok now2 df rep2 h2
  refine ⟨ht1.trans ht2.symm, hd1.trans hd2.symm, ?_, hb1.trans hb2.symm⟩
  have := hi1.symm.trans hi2
  injection this

/-- Witness for C9 at the concrete table `dfC9` and timestamps t1, t2. -/
theorem c9_witness :
    rep9a.title = rep9b.title ∧ rep9a.dist = rep9b.dist
      ∧ rep9a.insightLines = rep9b.insightLines ∧ rep9a.batch = rep9b.batch :=
  c9_deterministic dfC9 "t1" "t2" rep9a rep9b rfl rfl

/-- Claim C10: `generate_report` never propagates a failure to its caller:
it returns `none` exactly when loading failed or the internal computation
failed, and otherwise the content dict holding the rendered report. -/
theorem c10_total_error_handling (now : String)
    (load : Except LoadError (List RunRecord)) :
    (generate_report now load = none ↔
        ((∃ e, load = .error e)
          ∨ (∃ df e, load = .ok df ∧ generate_report_body now df = .error e)))
      ∧ (∀ df rep, load = .ok df → generate_report_body now df = .ok rep →
          generate_report now load = some { content := rep }) := by
  cases load with
  | error e =>
    refine ⟨?_, ?_⟩
    · simp [generate_report]
    · intro df rep hl _
      cases hl
  | ok df =>
    refine ⟨?_, ?_⟩
    · cases hb : generate_report_body now df with
      | ok rep => simp [generate_report, hb]
      | error e => simp [generate_report, hb]
    · intro df' rep hl hbody
      have hdf : df = df' := by injection hl
      subst hdf
      simp [generate_report, hbody]

/-- Witness for C10: a load failure maps to `none`; a successful computation
on the concrete table `dfC10` maps to the content dict. -/
theorem c10_witness :
    generate_report "d" (Except.error LoadError.malformed) = none
      ∧ generate_report "d" (Except.ok dfC10) = some { content := repC10 } :=
  ⟨(c10_total_error_handling "d" (Except.error LoadError.malformed)).1.mpr
      (Or.inl ⟨LoadError.malformed, rfl⟩),
    (c10_total_error_handling "d" (Except.ok dfC10)).2 dfC10 repC10 rfl rfl⟩
